import Mathlib

/-!
# Equinox launcher, Unix part (`eclipseNix.c`)

A shallow embedding of `findVMLibrary`, `findLib`, `adjustLibraryPath` and
`restartLauncher` from
`bundles/org.eclipse.equinox.executable/library/eclipseNix.c`, and the
properties of the launcher specification checked against it.

Modelling conventions

* A C string is the list of its characters before the terminating NUL; one
  `Char` stands for one C `char`.  A `char *` that may be `NULL` is an
  `Option CString`.
* `stat` is a function from paths to `Option Nat`: `none` when the call returns
  non-zero, `some m` when it returns `0` with `st_mode = m`.
* Pointer arithmetic on `NULL` and writes past the end of a `malloc`ed block are
  undefined behaviour in C; the embedding reports them as a `Fault`.
* `malloc`, `strdup` and `setenv` are taken to succeed, and string lengths to
  fit in an `int`.
* Functions, macros and globals that the file uses but that are declared in
  other files (`isVMLibrary`, `vmLibrary`, `dirSeparator`, `initialArgv`,
  `getVMLibrarySearchPath`, `containsPaths`, `concatStrings`, the Mozilla and
  Netscape fix-ups, `DEFAULT_OS_ARCH`) are fields of `Launcher`.
-/

namespace EclipseNix

/-- A NUL-terminated C string, without its terminator. -/
abbrev CString := List Char

/-! ## `<sys/stat.h>` -/

/-- Mask of the file-type bits of `st_mode`. -/
def S_IFMT : Nat := 0o170000
/-- File type: socket. -/
def S_IFSOCK : Nat := 0o140000
/-- File type: regular file. -/
def S_IFREG : Nat := 0o100000
/-- File type: block device. -/
def S_IFBLK : Nat := 0o060000
/-- File type: directory. -/
def S_IFDIR : Nat := 0o040000
/-- File type: character device. -/
def S_IFCHR : Nat := 0o020000
/-- File type: FIFO. -/
def S_IFIFO : Nat := 0o010000

/-- The file system as `stat` sees it: `none` is a failing call, `some m` a
successful one that stores `st_mode = m`. -/
abbrev FileSystem := CString → Option Nat

/-- The path names an existing regular file: `stat` succeeds and
`(st_mode & S_IFMT) == S_IFREG` (the `S_ISREG` test of POSIX). -/
def isRegularFile (fs : FileSystem) (path : CString) : Bool :=
  match fs path with
  | some mode => mode &&& S_IFMT == S_IFREG
  | none => false

/-! ## Build configuration (lines 26-48) -/

/-- The preprocessor symbols that select `JAVA_ARCH`. -/
structure Build where
  /-- `i386` is defined. -/
  i386 : Bool
  /-- `__ppc__` or `__powerpc64__` is defined. -/
  ppc : Bool
  /-- `SOLARIS` is defined. -/
  SOLARIS : Bool
  /-- `__amd64__` or `__x86_64__` is defined. -/
  amd64 : Bool
  /-- The value of `DEFAULT_OS_ARCH`, set by the make files. -/
  DEFAULT_OS_ARCH : CString

/-- The `#ifdef` chain of lines 26-36. -/
def JAVA_ARCH (b : Build) : CString :=
  if b.i386 then "i386".toList
  else if b.ppc then "ppc".toList
  else if b.SOLARIS then "sparc".toList
  else if b.amd64 then "amd64".toList
  else b.DEFAULT_OS_ARCH

/-- Line 38. -/
def MAX_LOCATION_LENGTH : Nat := 40

/-- The table of lines 39-48, without its closing `NULL`; `arch` is `JAVA_ARCH`. -/
def jvmLocations (arch : CString) : List CString :=
  [ "j9vm".toList, "../jre/bin/j9vm".toList,
    "classic".toList, "../jre/bin/classic".toList,
    "../lib/".toList ++ arch ++ "/client".toList,
    "../lib/".toList ++ arch ++ "/server".toList,
    "../lib/".toList ++ arch ++ "/jrockit".toList,
    "../jre/lib/".toList ++ arch ++ "/client".toList,
    "../jre/lib/".toList ++ arch ++ "/server".toList,
    "../jre/lib/".toList ++ arch ++ "/jrockit".toList,
    "../lib/jvm/jre/lib/".toList ++ arch ++ "/client".toList ]

/-! ## Process state -/

/-- The environment: `NAME=value` entries in order. -/
abbrev Environ := List (CString × CString)

/-- `getenv(name)`: the value of the first entry called `name`. -/
def getenv : Environ → CString → Option CString
  | [], _ => none
  | (k, v) :: rest, name => if k = name then some v else getenv rest name

/-- `setenv(name, value, 1)`: overwrite the entry called `name`, or add one. -/
def setenv : Environ → CString → CString → Environ
  | [], name, value => [(name, value)]
  | (k, v) :: rest, name, value =>
    if k = name then (k, value) :: rest else (k, v) :: setenv rest name value

/-- What the functions of this file do to the process, in order. -/
inductive Event where
  /-- A call `setenv(name, value, 1)`. -/
  | setenv (name value : CString)
  /-- A call `execv(program, args)`; `program = none` is a `NULL` pointer. -/
  | execv (program : Option CString) (args : List CString)
  deriving DecidableEq, Repr

/-- The mutable state of the launcher process. -/
structure Process where
  /-- The environment. -/
  environ : Environ
  /-- The `setenv` and `execv` calls made so far, oldest first. -/
  trace : List Event
  deriving DecidableEq, Repr

/-- Undefined behaviour that the embedding detects. -/
inductive Fault where
  /-- Arithmetic on, or access through, a `NULL` pointer. -/
  | nullPointer
  /-- A write past the end of an allocated block. -/
  | bufferOverflow
  deriving DecidableEq, Repr

deriving instance DecidableEq for Except

/-- How a call ends. -/
inductive Control (α : Type) where
  /-- The function returns `value` to its caller, in process state `state`. -/
  | returned (value : α) (state : Process)
  /-- The last `execv` call succeeded: the process image is replaced and nothing
  returns; `state` is the state the new image starts from. -/
  | replaced (state : Process)
  /-- Undefined behaviour. -/
  | fault (f : Fault)
  deriving DecidableEq, Repr

/-- Everything `eclipseNix.c` takes from the rest of the launcher and from the
system. -/
structure Launcher where
  /-- The preprocessor symbols of the build. -/
  build : Build
  /-- The global `dirSeparator`. -/
  dirSeparator : Char
  /-- The global `vmLibrary`, the file name of the VM shared library. -/
  vmLibrary : CString
  /-- The function `isVMLibrary` of the common launcher code. -/
  isVMLibrary : CString → Bool
  /-- `MOZILLA_FIX` is defined. -/
  MOZILLA_FIX : Bool
  /-- The effect of `fixEnvForMozilla()` on the environment. -/
  fixEnvForMozilla : Environ → Environ
  /-- `NETSCAPE_FIX` is defined. -/
  NETSCAPE_FIX : Bool
  /-- The effect of `fixEnvForNetscape()` on the environment. -/
  fixEnvForNetscape : Environ → Environ
  /-- The function `getVMLibrarySearchPath`, without the closing `NULL` of its
  result. -/
  getVMLibrarySearchPath : CString → List CString
  /-- The function `containsPaths`. -/
  containsPaths : CString → List CString → Bool
  /-- The function `concatStrings`. -/
  concatStrings : List CString → CString
  /-- The global `initialArgv`, without its closing `NULL`. -/
  initialArgv : List CString
  /-- Whether `execv(program, args)` succeeds in replacing the process image. -/
  execvSucceeds : Option CString → List CString → Bool

/-! ## `findLib` (lines 64-101) -/

/-- `strrchr(s, c)` for `c` other than NUL: the offset of the last `c` in `s`,
`none` for a `NULL` result. -/
def strrchr : CString → Char → Option Nat
  | [], _ => none
  | x :: xs, c =>
    match strrchr xs c with
    | some i => some (i + 1)
    | none => if x = c then some 0 else none

/-- The test of lines 74 and 94:
`stat(path, &stats) == 0 && (stats.st_mode & S_IFREG) != 0`. -/
def statTest (fs : FileSystem) (path : CString) : Bool :=
  match fs path with
  | some mode => mode &&& S_IFREG != 0
  | none => false

/-- The number of `char`s line 83 allocates for `path`. -/
def allocSize (L : Launcher) (pathLength : Nat) : Nat :=
  (pathLength + MAX_LOCATION_LENGTH + 1 + L.vmLibrary.length + 1) * 1

/-- What `sprintf(location, "%s%c%s", loc, dirSeparator, vmLibrary)` stores at
`location`, before the terminating NUL. -/
def formatLocation (L : Launcher) (loc : CString) : CString :=
  loc ++ [L.dirSeparator] ++ L.vmLibrary

/-- The number of `char`s of `path` in use after the `sprintf` of line 93: the
`pathLength` copied by `strncpy`, the formatted text and its NUL. -/
def usedSize (L : Launcher) (pathLength : Nat) (loc : CString) : Nat :=
  pathLength + (formatLocation L loc).length + 1

/-- The loop of lines 91-98 over the remaining entries of `jvmLocations`; `base`
is the text `strncpy` stored in `path`, `size` the allocated size. -/
def probe (L : Launcher) (fs : FileSystem) (base : CString) (size : Nat) :
    List CString → Except Fault (Option CString)
  | [] => .ok none
  | loc :: rest =>
    if size < usedSize L base.length loc then .error .bufferOverflow
    else if statTest fs (base ++ formatLocation L loc) then
      .ok (some (base ++ formatLocation L loc))
    else probe L fs base size rest

/-- `findLib(command)`. -/
def findLib (L : Launcher) (fs : FileSystem) :
    Option CString → Except Fault (Option CString)
  | none => .ok none
  | some command =>
    if L.isVMLibrary command then
      if statTest fs command then .ok (some command) else .ok none
    else
      match strrchr command L.dirSeparator with
      | none => .error .nullPointer
      | some i =>
        let pathLength := i + 1
        probe L fs (command.take pathLength) (allocSize L pathLength)
          (jvmLocations (JAVA_ARCH L.build))

/-! ## `restartLauncher`, `adjustLibraryPath`, `findVMLibrary` -/

/-- The name `"LD_LIBRARY_PATH"`. -/
def LD_LIBRARY_PATH : CString := "LD_LIBRARY_PATH".toList

/-- `restartLauncher(program, args)` (lines 155-159): one `execv` call, whose
result is discarded. -/
def restartLauncher (L : Launcher) (program : Option CString) (args : List CString)
    (s : Process) : Control Unit :=
  let file := match program with
    | some p => some p
    | none => args.head?
  let s1 : Process := { s with trace := s.trace ++ [Event.execv file args] }
  if L.execvSucceeds file args then .replaced s1 else .returned () s1

/-- Lines 114-119: the conditionally compiled fix-ups. -/
def fixEnv (L : Launcher) (env : Environ) : Environ :=
  let env1 := if L.MOZILLA_FIX then L.fixEnvForMozilla env else env
  if L.NETSCAPE_FIX then L.fixEnvForNetscape env1 else env1

/-- `adjustLibraryPath(vmLibrary)` (lines 104-153); the parameter is the library
`findLib` found. -/
def adjustLibraryPath (L : Launcher) (vmLibrary : CString) (s : Process) :
    Control Unit :=
  let s0 : Process := { s with environ := fixEnv L s.environ }
  let paths := L.getVMLibrarySearchPath vmLibrary
  let (ldPath, needAdjust) :=
    match getenv s0.environ LD_LIBRARY_PATH with
    | none => (([] : CString), true)
    | some v => (v, !L.containsPaths v paths)
  if !needAdjust then .returned () s0
  else
    let c := L.concatStrings paths
    let newPath := c ++ ldPath
    let s1 : Process :=
      { environ := setenv s0.environ LD_LIBRARY_PATH newPath
        trace := s0.trace ++ [Event.setenv LD_LIBRARY_PATH newPath] }
    restartLauncher L L.initialArgv.head? L.initialArgv s1

/-- `findVMLibrary(command)` (lines 56-62). -/
def findVMLibrary (L : Launcher) (fs : FileSystem) (command : Option CString)
    (s : Process) : Control (Option CString) :=
  match findLib L fs command with
  | .error f => .fault f
  | .ok none => .returned none s
  | .ok (some lib) =>
    match adjustLibraryPath L lib s with
    | .returned _ s1 => .returned (some lib) s1
    | .replaced s1 => .replaced s1
    | .fault f => .fault f

/-! ## A sample configuration -/

/-- A library name ends in `.so`: a stand-in for `isVMLibrary` on Linux. -/
def endsWithSo (s : CString) : Bool := ".so".toList.isSuffixOf s

/-- The entries of a colon-separated list. -/
def splitAtColons : CString → List CString
  | [] => [[]]
  | c :: cs =>
    if c = ':' then [] :: splitAtColons cs
    else
      match splitAtColons cs with
      | [] => [[c]]
      | h :: t => (c :: h) :: t

/-- A sample Linux build: `i386`, `/` as separator, `libjvm.so` as library, no
fix-ups, `execv` always failing. -/
def sample : Launcher where
  build := { i386 := true, ppc := false, SOLARIS := false, amd64 := false,
             DEFAULT_OS_ARCH := "x86".toList }
  dirSeparator := '/'
  vmLibrary := "libjvm.so".toList
  isVMLibrary := endsWithSo
  MOZILLA_FIX := false
  fixEnvForMozilla := id
  NETSCAPE_FIX := false
  fixEnvForNetscape := id
  getVMLibrarySearchPath := fun lib =>
    match strrchr lib '/' with
    | some i => [lib.take i ++ [':']]
    | none => []
  containsPaths := fun ldPath paths =>
    paths.all fun p => decide (p.dropLast ∈ splitAtColons ldPath)
  concatStrings := List.flatten
  initialArgv := ["/opt/app/eclipse".toList, "-vm".toList, "/opt/app/jre/bin/java".toList]
  execvSucceeds := fun _ _ => false

/-- A file system whose only file is the regular file
`/opt/app/jre/bin/classic/libjvm.so`. -/
def fsClassic : FileSystem := fun p =>
  if p = "/opt/app/jre/bin/classic/libjvm.so".toList then some 0o100755 else none

/-- A file system whose only file is the socket
`/opt/app/jre/bin/j9vm/libjvm.so`. -/
def fsSocket : FileSystem := fun p =>
  if p = "/opt/app/jre/bin/j9vm/libjvm.so".toList then some 0o140755 else none

/-- A file system with no file named `/opt/vm/libjvm.so` and the regular file
`/opt/vm/j9vm/libjvm.so` in a candidate directory next to it. -/
def fsNextTo : FileSystem := fun p =>
  if p = "/opt/vm/j9vm/libjvm.so".toList then some 0o100755 else none

/-- A file system whose only file is the socket `/opt/vm/libjvm.so`. -/
def fsSocketLib : FileSystem := fun p =>
  if p = "/opt/vm/libjvm.so".toList then some 0o140755 else none

/-- The process state after the call, when there is one. -/
def Control.state? {α : Type} : Control α → Option Process
  | .returned _ s => some s
  | .replaced s => some s
  | .fault _ => none

/-! ## Lemmas -/

theorem strrchr_eq_none {s : CString} {c : Char} : strrchr s c = none ↔ c ∉ s := by
  induction s with
  | nil => simp [strrchr]
  | cons x xs ih =>
    cases h : strrchr xs c with
    | none =>
      have hx := ih.mp h
      by_cases hxc : x = c
      · simp [strrchr, h, hxc]
      · simp [strrchr, h, hxc, hx]; exact fun e => hxc e.symm
    | some i =>
      have hx : c ∈ xs := by
        by_contra hc
        rw [ih.mpr hc] at h; cases h
      simp [strrchr, h, hx]

theorem strrchr_some {s : CString} {c : Char} {i : Nat} (h : strrchr s c = some i) :
    s.get? i = some c ∧ ∀ j, i < j → s.get? j ≠ some c := by
  induction s generalizing i with
  | nil => simp [strrchr] at h
  | cons x xs ih =>
    cases hxs : strrchr xs c with
    | some k =>
      simp only [strrchr, hxs, Option.some.injEq] at h
      subst h
      obtain ⟨h1, h2⟩ := ih hxs
      refine ⟨by simpa using h1, ?_⟩
      intro j hj
      cases j with
      | zero => omega
      | succ j => simpa using h2 j (by omega)
    | none =>
      by_cases hxc : x = c
      · simp only [strrchr, hxs, hxc, if_true, Option.some.injEq] at h
        subst h
        refine ⟨by simp [hxc], ?_⟩
        intro j hj
        cases j with
        | zero => omega
        | succ j =>
          have hnot := strrchr_eq_none.mp hxs
          intro hget
          apply hnot
          have : xs.get? j = some c := by simpa using hget
          exact List.get?_mem this
      · simp [strrchr, hxs, hxc] at h

theorem strrchr_lt_length {s : CString} {c : Char} {i : Nat} (h : strrchr s c = some i) :
    i < s.length := by
  have h1 := (strrchr_some h).1
  by_contra hc
  rw [List.get?_eq_none.mpr (by omega)] at h1
  cases h1

theorem probe_fits_first (L : Launcher) (fs : FileSystem) (base : CString) (size : Nat)
    (locs : List CString) (hfit : ∀ loc ∈ locs, usedSize L base.length loc ≤ size)
    (i : Nat) (hi : i < locs.length)
    (hit : statTest fs (base ++ formatLocation L locs[i]) = true)
    (hmiss : ∀ j (hj : j < i), statTest fs (base ++ formatLocation L locs[j]) = false) :
    probe L fs base size locs = .ok (some (base ++ formatLocation L locs[i])) := by
  induction locs generalizing i with
  | nil => simp at hi
  | cons loc rest ih =>
    have hloc : ¬ size < usedSize L base.length loc :=
      Nat.not_lt.mpr (hfit loc (List.mem_cons_self _ _))
    cases i with
    | zero =>
      have hit0 : statTest fs (base ++ formatLocation L loc) = true := by simpa using hit
      simp [probe, hloc, hit0]
    | succ k =>
      have h0 : statTest fs (base ++ formatLocation L loc) = false := by
        simpa using hmiss 0 (by omega)
      have hk : k < rest.length := by simpa using hi
      have := ih (fun l hl => hfit l (List.mem_cons_of_mem _ hl)) k hk
        (by simpa using hit)
        (fun j hj => by simpa using hmiss (j + 1) (by omega))
      simpa [probe, hloc, h0] using this

theorem probe_fits_none (L : Launcher) (fs : FileSystem) (base : CString) (size : Nat)
    (locs : List CString) (hfit : ∀ loc ∈ locs, usedSize L base.length loc ≤ size) :
    probe L fs base size locs = .ok none ↔
      ∀ loc ∈ locs, statTest fs (base ++ formatLocation L loc) = false := by
  induction locs with
  | nil => simp [probe]
  | cons loc rest ih =>
    have hloc : ¬ size < usedSize L base.length loc :=
      Nat.not_lt.mpr (hfit loc (List.mem_cons_self _ _))
    have ih1 := ih (fun l hl => hfit l (List.mem_cons_of_mem _ hl))
    cases h0 : statTest fs (base ++ formatLocation L loc) with
    | true => simp [probe, hloc, h0]
    | false => simp [probe, hloc, h0, ih1]

theorem jvmLocations_length_le (arch : CString) (harch : arch.length ≤ 14) :
    ∀ loc ∈ jvmLocations arch, loc.length ≤ MAX_LOCATION_LENGTH := by
  intro loc hloc
  simp only [jvmLocations, List.mem_cons, List.mem_singleton, List.not_mem_nil, or_false] at hloc
  rcases hloc with h | h | h | h | h | h | h | h | h | h | h <;> subst h <;>
    simp [MAX_LOCATION_LENGTH] <;> omega

theorem usedSize_le_allocSize (L : Launcher) (pathLength : Nat) (loc : CString)
    (hloc : loc.length ≤ MAX_LOCATION_LENGTH) :
    usedSize L pathLength loc ≤ allocSize L pathLength := by
  simp only [usedSize, allocSize, formatLocation, List.length_append, List.length_singleton,
    Nat.mul_one]
  omega

theorem JAVA_ARCH_builtin_length (b : Build)
    (hb : b.i386 = true ∨ b.ppc = true ∨ b.SOLARIS = true ∨ b.amd64 = true) :
    (JAVA_ARCH b).length ≤ 14 := by
  unfold JAVA_ARCH
  split_ifs with h1 h2 h3 h4
  · decide
  · decide
  · decide
  · decide
  · simp_all

theorem probe_fits_ok (L : Launcher) (fs : FileSystem) (base : CString) (size : Nat)
    (locs : List CString) (hfit : ∀ loc ∈ locs, usedSize L base.length loc ≤ size) :
    ∃ r, probe L fs base size locs = .ok r := by
  induction locs with
  | nil => exact ⟨none, rfl⟩
  | cons loc rest ih =>
    have hloc : ¬ size < usedSize L base.length loc :=
      Nat.not_lt.mpr (hfit loc (List.mem_cons_self _ _))
    obtain ⟨r, hr⟩ := ih (fun l hl => hfit l (List.mem_cons_of_mem _ hl))
    cases h0 : statTest fs (base ++ formatLocation L loc) with
    | true => exact ⟨some (base ++ formatLocation L loc), by simp [probe, hloc, h0]⟩
    | false => exact ⟨r, by simp [probe, hloc, h0, hr]⟩

theorem getenv_setenv (env : Environ) (name value : CString) :
    getenv (setenv env name value) name = some value := by
  induction env with
  | nil => simp [setenv, getenv]
  | cons e rest ih =>
    obtain ⟨k, v⟩ := e
    by_cases hk : k = name
    · simp [setenv, getenv, hk]
    · simp [setenv, getenv, hk, ih]

theorem adjustLibraryPath_unchanged (L : Launcher) (vmLibrary : CString) (s : Process)
    (v : CString) (hv : getenv (fixEnv L s.environ) LD_LIBRARY_PATH = some v)
    (hc : L.containsPaths v (L.getVMLibrarySearchPath vmLibrary) = true) :
    adjustLibraryPath L vmLibrary s =
      .returned () { environ := fixEnv L s.environ, trace := s.trace } := by
  simp [adjustLibraryPath, hv, hc]

theorem adjustLibraryPath_adjusted (L : Launcher) (vmLibrary : CString) (s : Process)
    (previous : Option CString)
    (hprev : getenv (fixEnv L s.environ) LD_LIBRARY_PATH = previous)
    (hneed : previous = none ∨
      ∃ v, previous = some v ∧ L.containsPaths v (L.getVMLibrarySearchPath vmLibrary) = false) :
    adjustLibraryPath L vmLibrary s =
      restartLauncher L L.initialArgv.head? L.initialArgv
        { environ := setenv (fixEnv L s.environ) LD_LIBRARY_PATH
            (L.concatStrings (L.getVMLibrarySearchPath vmLibrary) ++ previous.getD [])
          trace := s.trace ++ [Event.setenv LD_LIBRARY_PATH
            (L.concatStrings (L.getVMLibrarySearchPath vmLibrary) ++ previous.getD [])] } := by
  rcases hneed with h | ⟨v, h, hc⟩
  · subst h
    simp [adjustLibraryPath, hprev]
  · subst h
    simp [adjustLibraryPath, hprev, hc]

theorem restartLauncher_argv0 (L : Launcher) (args : List CString) (s : Process) :
    restartLauncher L args.head? args s =
      if L.execvSucceeds args.head? args then
        .replaced { environ := s.environ, trace := s.trace ++ [Event.execv args.head? args] }
      else
        .returned () { environ := s.environ, trace := s.trace ++ [Event.execv args.head? args] } := by
  cases h : args.head? <;> simp [restartLauncher, h]

/-! ## The library locator -/

/-- C1: for every file system and every command that is not a library path and
contains a directory separator, `findLib` splits the command after its last
separator and returns base + `jvmLocations[k]` + separator + `vmLibrary` for the
smallest `k`, in the declared order `j9vm`, `../jre/bin/j9vm`, `classic`,
`../jre/bin/classic`, ..., whose path passes the test of line 94, whatever later
candidates do; it returns `NULL` exactly when no candidate passes.  The
architecture token is at most 14 characters long, as the four built-in ones
are, so that every candidate fits the buffer. -/
theorem findLib_returns_first_candidate (L : Launcher) (fs : FileSystem) (command : CString)
    (harch : (JAVA_ARCH L.build).length ≤ 14)
    (hlib : L.isVMLibrary command = false)
    (hsep : L.dirSeparator ∈ command) :
    ∃ i, strrchr command L.dirSeparator = some i ∧
      command.get? i = some L.dirSeparator ∧
      (∀ j, i < j → command.get? j ≠ some L.dirSeparator) ∧
      (jvmLocations (JAVA_ARCH L.build)).take 4 =
        ["j9vm".toList, "../jre/bin/j9vm".toList, "classic".toList,
          "../jre/bin/classic".toList] ∧
      (∀ k (hk : k < (jvmLocations (JAVA_ARCH L.build)).length),
        statTest fs (command.take (i + 1) ++ (jvmLocations (JAVA_ARCH L.build))[k]
          ++ [L.dirSeparator] ++ L.vmLibrary) = true →
        (∀ j (hj : j < k),
          statTest fs (command.take (i + 1) ++ (jvmLocations (JAVA_ARCH L.build))[j]
            ++ [L.dirSeparator] ++ L.vmLibrary) = false) →
        findLib L fs (some command) =
          .ok (some (command.take (i + 1) ++ (jvmLocations (JAVA_ARCH L.build))[k]
            ++ [L.dirSeparator] ++ L.vmLibrary))) ∧
      (findLib L fs (some command) = .ok none ↔
        ∀ loc ∈ jvmLocations (JAVA_ARCH L.build),
          statTest fs (command.take (i + 1) ++ loc ++ [L.dirSeparator] ++ L.vmLibrary)
            = false) := by
  cases hi : strrchr command L.dirSeparator with
  | none => exact absurd hsep (strrchr_eq_none.mp hi)
  | some i =>
    have hlen : (command.take (i + 1)).length = i + 1 := by
      have := strrchr_lt_length hi
      simp only [List.length_take]; omega
    have hfit : ∀ loc ∈ jvmLocations (JAVA_ARCH L.build),
        usedSize L (command.take (i + 1)).length loc ≤ allocSize L (i + 1) := by
      intro loc hloc
      rw [hlen]
      exact usedSize_le_allocSize L (i + 1) loc (jvmLocations_length_le _ harch loc hloc)
    have hfind : findLib L fs (some command) =
        probe L fs (command.take (i + 1)) (allocSize L (i + 1))
          (jvmLocations (JAVA_ARCH L.build)) := by
      simp [findLib, hlib, hi]
    refine ⟨i, rfl, (strrchr_some hi).1, (strrchr_some hi).2, rfl, ?_, ?_⟩
    · intro k hk hit hmiss
      rw [hfind]
      have := probe_fits_first L fs (command.take (i + 1)) (allocSize L (i + 1))
        (jvmLocations (JAVA_ARCH L.build)) hfit k hk
        (by simpa [formatLocation, List.append_assoc] using hit)
        (fun j hj => by simpa [formatLocation, List.append_assoc] using hmiss j hj)
      simpa [formatLocation, List.append_assoc] using this
    · rw [hfind, probe_fits_none L fs _ _ _ hfit]
      simp [formatLocation, List.append_assoc]

/-- Witness of C1: the command `/opt/app/jre/bin/java`, with the library present
only at `/opt/app/jre/bin/classic/libjvm.so`, yields that path. -/
theorem findLib_returns_first_candidate_witness :
    (JAVA_ARCH sample.build).length ≤ 14 ∧
    sample.isVMLibrary "/opt/app/jre/bin/java".toList = false ∧
    sample.dirSeparator ∈ "/opt/app/jre/bin/java".toList ∧
    findLib sample fsClassic (some "/opt/app/jre/bin/java".toList) =
      .ok (some "/opt/app/jre/bin/classic/libjvm.so".toList) := by
  refine ⟨by decide, by decide, by decide, ?_⟩
  obtain ⟨i, hi, -, -, -, hfirst, -⟩ :=
    findLib_returns_first_candidate sample fsClassic "/opt/app/jre/bin/java".toList
      (by decide) (by decide) (by decide)
  have h17 : strrchr "/opt/app/jre/bin/java".toList sample.dirSeparator = some 16 := by decide
  rw [h17] at hi
  cases hi
  have := hfirst 2 (by decide) (by decide)
    (fun j hj => by interval_cases j <;> rfl)
  rw [this]
  decide

/-- C2: the library-named command `/opt/vm/libjvm.so` that exists as a socket is
not a regular file, and `findLib` returns it where the specification has it
return `NULL`: line 74 tests `st_mode & S_IFREG`, which is non-zero for a socket
too. -/
theorem findLib_library_command_socket :
    sample.isVMLibrary "/opt/vm/libjvm.so".toList = true ∧
    fsSocketLib "/opt/vm/libjvm.so".toList = some (S_IFSOCK ||| 0o755) ∧
    isRegularFile fsSocketLib "/opt/vm/libjvm.so".toList = false ∧
    findLib sample fsSocketLib (some "/opt/vm/libjvm.so".toList) =
      .ok (some "/opt/vm/libjvm.so".toList) := by
  refine ⟨by decide, by decide, by decide, by decide⟩

/-- C6: with a socket at `/opt/app/jre/bin/j9vm/libjvm.so`, `findLib` returns that
path for the command `/opt/app/jre/bin/java`, although its file type is
`S_IFSOCK` and not `S_IFREG`: line 94 tests `st_mode & S_IFREG` instead of
`(st_mode & S_IFMT) == S_IFREG`. -/
theorem findLib_returns_socket :
    findLib sample fsSocket (some "/opt/app/jre/bin/java".toList) =
      .ok (some "/opt/app/jre/bin/j9vm/libjvm.so".toList) ∧
    fsSocket "/opt/app/jre/bin/j9vm/libjvm.so".toList = some 0o140755 ∧
    0o140755 &&& S_IFMT = S_IFSOCK ∧
    0o140755 &&& S_IFMT ≠ S_IFREG ∧
    isRegularFile fsSocket "/opt/app/jre/bin/j9vm/libjvm.so".toList = false := by
  refine ⟨by decide, by decide, by decide, by decide, by decide⟩

/-- C7: in a build with one of the built-in architecture tokens (`i386`, `ppc`,
`sparc`, `amd64`) no string of `jvmLocations` is longer than
`MAX_LOCATION_LENGTH`; so for every command with a separator and every library
file name, what `findLib` stores in `path` for a candidate (the copied prefix,
the candidate, the separator, `vmLibrary` and the NUL) fits the
`pathLength + MAX_LOCATION_LENGTH + 1 + strlen(vmLibrary) + 1` characters of line
83, and `findLib` never writes past the block. -/
theorem findLib_candidate_fits_buffer (b : Build)
    (hb : b.i386 = true ∨ b.ppc = true ∨ b.SOLARIS = true ∨ b.amd64 = true) :
    JAVA_ARCH b ∈ ["i386".toList, "ppc".toList, "sparc".toList, "amd64".toList] ∧
    (∀ loc ∈ jvmLocations (JAVA_ARCH b), loc.length ≤ MAX_LOCATION_LENGTH) ∧
    (∀ (L : Launcher) (command : CString), L.build = b → L.dirSeparator ∈ command →
      ∃ i, strrchr command L.dirSeparator = some i ∧
        allocSize L (i + 1) = i + 1 + MAX_LOCATION_LENGTH + 1 + L.vmLibrary.length + 1 ∧
        (∀ loc ∈ jvmLocations (JAVA_ARCH b),
          usedSize L (i + 1) loc =
            (command.take (i + 1)).length + loc.length + 1 + L.vmLibrary.length + 1 ∧
          usedSize L (i + 1) loc ≤ allocSize L (i + 1)) ∧
        (∀ fs, findLib L fs (some command) ≠ .error .bufferOverflow)) := by
  have harch := JAVA_ARCH_builtin_length b hb
  refine ⟨?_, jvmLocations_length_le _ harch, ?_⟩
  · unfold JAVA_ARCH
    split_ifs <;> simp_all
  · intro L command hL hsep
    subst hL
    cases hi : strrchr command L.dirSeparator with
    | none => exact absurd hsep (strrchr_eq_none.mp hi)
    | some i =>
      have hlen : (command.take (i + 1)).length = i + 1 := by
        have := strrchr_lt_length hi
        simp only [List.length_take]; omega
      have hfit : ∀ loc ∈ jvmLocations (JAVA_ARCH L.build),
          usedSize L (i + 1) loc ≤ allocSize L (i + 1) := fun loc hloc =>
        usedSize_le_allocSize L (i + 1) loc (jvmLocations_length_le _ harch loc hloc)
      refine ⟨i, rfl, by simp [allocSize], ?_, ?_⟩
      · intro loc hloc
        refine ⟨?_, hfit loc hloc⟩
        rw [hlen]
        simp only [usedSize, formatLocation, List.length_append, List.length_singleton]
        omega
      · intro fs
        by_cases hlib : L.isVMLibrary command = true
        · by_cases ht : statTest fs command = true <;> simp [findLib, hlib, ht]
        · obtain ⟨r, hr⟩ := probe_fits_ok L fs (command.take (i + 1)) (allocSize L (i + 1))
            (jvmLocations (JAVA_ARCH L.build)) (by rw [hlen]; exact hfit)
          simp [findLib, hlib, hi, hr]

/-- Witness of C7: the sample `i386` build; its longest candidate,
`../lib/jvm/jre/lib/i386/client`, has 30 characters. -/
theorem findLib_candidate_fits_buffer_witness :
    (sample.build.i386 = true ∨ sample.build.ppc = true ∨ sample.build.SOLARIS = true ∨
      sample.build.amd64 = true) ∧
    "../lib/jvm/jre/lib/i386/client".toList ∈ jvmLocations (JAVA_ARCH sample.build) ∧
    "../lib/jvm/jre/lib/i386/client".toList.length ≤ MAX_LOCATION_LENGTH :=
  ⟨by decide, by decide,
    (findLib_candidate_fits_buffer sample.build (by decide)).2.1 _ (by decide)⟩

/-- C10: the command `java` has no directory separator and is no library path;
`strrchr` returns `NULL`, line 81 adds one to it, and `findLib` has no defined
result, whatever the file system holds. -/
theorem findLib_no_separator_undefined :
    sample.isVMLibrary "java".toList = false ∧
    strrchr "java".toList sample.dirSeparator = none ∧
    ∀ fs : FileSystem, findLib sample fs (some "java".toList) = .error .nullPointer := by
  refine ⟨by decide, by decide, ?_⟩
  intro fs
  rfl

/-! ## The path adjuster and the relauncher -/

/-- C3: `adjustLibraryPath` sets `LD_LIBRARY_PATH` to a new value, which `getenv`
then reads back, and calls `execv` exactly when the variable is unset or
`containsPaths` answers that it lacks some directory of
`getVMLibrarySearchPath`.  When the variable is set and holds all of them, the
call returns with the environment and the trace as they were (the optional
Mozilla and Netscape fix-ups, absent from a plain build, run first); when it is
unset, the variable becomes `concatStrings(paths)` and the `execv` happens
whatever the list of required directories is. -/
theorem adjustLibraryPath_adjusts_iff (L : Launcher) (vmLibrary : CString) (s : Process) :
    (L.MOZILLA_FIX = false → L.NETSCAPE_FIX = false → fixEnv L s.environ = s.environ) ∧
    ((∃ value s1, (adjustLibraryPath L vmLibrary s).state? = some s1 ∧
        s1.environ = setenv (fixEnv L s.environ) LD_LIBRARY_PATH value ∧
        getenv s1.environ LD_LIBRARY_PATH = some value ∧
        s1.trace = s.trace ++ [Event.setenv LD_LIBRARY_PATH value,
          Event.execv L.initialArgv.head? L.initialArgv]) ↔
      (getenv (fixEnv L s.environ) LD_LIBRARY_PATH = none ∨
        ∃ v, getenv (fixEnv L s.environ) LD_LIBRARY_PATH = some v ∧
          L.containsPaths v (L.getVMLibrarySearchPath vmLibrary) = false)) ∧
    (∀ v, getenv (fixEnv L s.environ) LD_LIBRARY_PATH = some v →
      L.containsPaths v (L.getVMLibrarySearchPath vmLibrary) = true →
      adjustLibraryPath L vmLibrary s =
        .returned () { environ := fixEnv L s.environ, trace := s.trace }) ∧
    (getenv (fixEnv L s.environ) LD_LIBRARY_PATH = none →
      (adjustLibraryPath L vmLibrary s).state? =
        some { environ := setenv (fixEnv L s.environ) LD_LIBRARY_PATH
                 (L.concatStrings (L.getVMLibrarySearchPath vmLibrary))
               trace := s.trace ++
                 [Event.setenv LD_LIBRARY_PATH
                   (L.concatStrings (L.getVMLibrarySearchPath vmLibrary)),
                  Event.execv L.initialArgv.head? L.initialArgv] } ∧
      getenv (setenv (fixEnv L s.environ) LD_LIBRARY_PATH
          (L.concatStrings (L.getVMLibrarySearchPath vmLibrary))) LD_LIBRARY_PATH =
        some (L.concatStrings (L.getVMLibrarySearchPath vmLibrary))) := by
  have hadj : ∀ previous : Option CString,
      getenv (fixEnv L s.environ) LD_LIBRARY_PATH = previous →
      (previous = none ∨ ∃ v, previous = some v ∧
        L.containsPaths v (L.getVMLibrarySearchPath vmLibrary) = false) →
      (adjustLibraryPath L vmLibrary s).state? =
        some { environ := setenv (fixEnv L s.environ) LD_LIBRARY_PATH
                 (L.concatStrings (L.getVMLibrarySearchPath vmLibrary) ++ previous.getD [])
               trace := s.trace ++ [Event.setenv LD_LIBRARY_PATH
                   (L.concatStrings (L.getVMLibrarySearchPath vmLibrary) ++ previous.getD []),
                 Event.execv L.initialArgv.head? L.initialArgv] } := by
    intro previous hprev hneed
    rw [adjustLibraryPath_adjusted L vmLibrary s previous hprev hneed, restartLauncher_argv0]
    split_ifs <;> simp [Control.state?]
  refine ⟨?_, ⟨?_, ?_⟩, adjustLibraryPath_unchanged L vmLibrary s, ?_⟩
  · intro h1 h2
    simp [fixEnv, h1, h2]
  · rintro ⟨value, s1, hstate, -, -, htrace⟩
    cases hprev : getenv (fixEnv L s.environ) LD_LIBRARY_PATH with
    | none => exact Or.inl rfl
    | some v =>
      right
      refine ⟨v, rfl, ?_⟩
      by_contra hc
      have hc1 : L.containsPaths v (L.getVMLibrarySearchPath vmLibrary) = true := by
        simpa using hc
      rw [adjustLibraryPath_unchanged L vmLibrary s v hprev hc1] at hstate
      simp only [Control.state?, Option.some.injEq] at hstate
      subst hstate
      simp at htrace
  · intro hneed
    exact ⟨_, _, hadj _ rfl hneed, rfl, getenv_setenv _ _ _, rfl⟩
  · intro hnone
    have := hadj none hnone (Or.inl rfl)
    exact ⟨by simpa using this, getenv_setenv _ _ _⟩

/-- Witness of C3: with `LD_LIBRARY_PATH=/opt/app/jre/bin/classic` the sample
launcher leaves the process alone; with the variable unset and an empty list of
required directories the environment gains `LD_LIBRARY_PATH=` (the empty
string), which `getenv` reads back, and `execv` is called. -/
theorem adjustLibraryPath_adjusts_iff_witness :
    adjustLibraryPath sample "/opt/app/jre/bin/classic/libjvm.so".toList
        { environ := [(LD_LIBRARY_PATH, "/opt/app/jre/bin/classic".toList)], trace := [] } =
      .returned ()
        { environ := [(LD_LIBRARY_PATH, "/opt/app/jre/bin/classic".toList)], trace := [] } ∧
    getenv ([] : Environ) LD_LIBRARY_PATH = none ∧
    ((adjustLibraryPath { sample with getVMLibrarySearchPath := fun _ => [] }
        "/opt/app/jre/bin/classic/libjvm.so".toList
        { environ := [], trace := [] }).state? =
      some { environ := [(LD_LIBRARY_PATH, [])]
             trace := [Event.setenv LD_LIBRARY_PATH [],
               Event.execv (some "/opt/app/eclipse".toList) sample.initialArgv] } ∧
      getenv [(LD_LIBRARY_PATH, [])] LD_LIBRARY_PATH = some []) :=
  ⟨(adjustLibraryPath_adjusts_iff sample "/opt/app/jre/bin/classic/libjvm.so".toList
      { environ := [(LD_LIBRARY_PATH, "/opt/app/jre/bin/classic".toList)], trace := [] }).2.2.1
      "/opt/app/jre/bin/classic".toList (by decide) (by decide),
    by decide,
    (adjustLibraryPath_adjusts_iff { sample with getVMLibrarySearchPath := fun _ => [] }
      "/opt/app/jre/bin/classic/libjvm.so".toList { environ := [], trace := [] }).2.2.2
      (by decide)⟩

/-- C4: when adjustment is needed, `LD_LIBRARY_PATH` is set to
`concatStrings(paths)` followed by the value it had (the empty string when it
was unset), so the required directories come first and the old value is kept as
a suffix; then `execv` is called with program `initialArgv[0]` and arguments
`initialArgv`. -/
theorem adjustLibraryPath_new_value (L : Launcher) (vmLibrary : CString) (s : Process)
    (previous : Option CString)
    (hprev : getenv (fixEnv L s.environ) LD_LIBRARY_PATH = previous)
    (hneed : previous = none ∨
      ∃ v, previous = some v ∧ L.containsPaths v (L.getVMLibrarySearchPath vmLibrary) = false) :
    ∃ newPath,
      newPath = L.concatStrings (L.getVMLibrarySearchPath vmLibrary) ++ previous.getD [] ∧
      L.concatStrings (L.getVMLibrarySearchPath vmLibrary) <+: newPath ∧
      previous.getD [] <:+ newPath ∧
      (adjustLibraryPath L vmLibrary s).state? =
        some { environ := setenv (fixEnv L s.environ) LD_LIBRARY_PATH newPath
               trace := s.trace ++ [Event.setenv LD_LIBRARY_PATH newPath,
                 Event.execv L.initialArgv.head? L.initialArgv] } ∧
      getenv (setenv (fixEnv L s.environ) LD_LIBRARY_PATH newPath) LD_LIBRARY_PATH
        = some newPath := by
  refine ⟨_, rfl, List.prefix_append _ _, List.suffix_append _ _, ?_, getenv_setenv _ _ _⟩
  rw [adjustLibraryPath_adjusted L vmLibrary s previous hprev hneed, restartLauncher_argv0]
  split_ifs <;> simp [Control.state?]

/-- Witness of C4: with `LD_LIBRARY_PATH=/usr/lib` the sample launcher sets it to
`/opt/app/jre/bin/classic:/usr/lib` and calls `execv` with its `initialArgv`. -/
theorem adjustLibraryPath_new_value_witness :
    (adjustLibraryPath sample "/opt/app/jre/bin/classic/libjvm.so".toList
        { environ := [(LD_LIBRARY_PATH, "/usr/lib".toList)], trace := [] }).state? =
      some { environ := [(LD_LIBRARY_PATH, "/opt/app/jre/bin/classic:/usr/lib".toList)]
             trace := [Event.setenv LD_LIBRARY_PATH "/opt/app/jre/bin/classic:/usr/lib".toList,
               Event.execv (some "/opt/app/eclipse".toList)
                 ["/opt/app/eclipse".toList, "-vm".toList, "/opt/app/jre/bin/java".toList]] } := by
  obtain ⟨newPath, hnew, -, -, hstate, -⟩ :=
    adjustLibraryPath_new_value sample "/opt/app/jre/bin/classic/libjvm.so".toList
      { environ := [(LD_LIBRARY_PATH, "/usr/lib".toList)], trace := [] }
      (some "/usr/lib".toList) (by decide)
      (Or.inr ⟨"/usr/lib".toList, rfl, by decide⟩)
  rw [hstate, hnew]
  decide

/-- C8: `restartLauncher(program, args)` makes one `execv` call, on `program`
when it is not `NULL` and on `args[0]` when it is, with `args` as the argument
vector; it leaves the environment as it was, and the process image is replaced
when that call succeeds. -/
theorem restartLauncher_execv (L : Launcher) (args : List CString) (s : Process) :
    (∀ p : CString, restartLauncher L (some p) args s =
      if L.execvSucceeds (some p) args then
        .replaced { environ := s.environ, trace := s.trace ++ [Event.execv (some p) args] }
      else
        .returned () { environ := s.environ, trace := s.trace ++ [Event.execv (some p) args] }) ∧
    restartLauncher L none args s =
      (if L.execvSucceeds args.head? args then
        .replaced { environ := s.environ, trace := s.trace ++ [Event.execv args.head? args] }
      else
        .returned () { environ := s.environ, trace := s.trace ++ [Event.execv args.head? args] }) := by
  constructor
  · intro p
    simp [restartLauncher]
  · simp [restartLauncher]

/-! ## The whole flow -/

/-- C9: when `findLib` reports not-found, for a `NULL` command too,
`findVMLibrary` returns `NULL` in the process state it was called in: no
`setenv`, no `execv`, the environment untouched.  And whenever `findVMLibrary`
returns, it returns what `findLib` returns for the same command and file
system. -/
theorem findVMLibrary_not_found (L : Launcher) (fs : FileSystem) (command : Option CString)
    (s : Process) :
    findLib L fs none = .ok none ∧
    (findLib L fs command = .ok none → findVMLibrary L fs command s = .returned none s) ∧
    (∀ r s1, findVMLibrary L fs command s = .returned r s1 → findLib L fs command = .ok r) := by
  refine ⟨rfl, ?_, ?_⟩
  · intro h
    simp [findVMLibrary, h]
  · intro r s1 h
    unfold findVMLibrary at h
    split at h
    · cases h
    · cases h; assumption
    · split at h
      · cases h; assumption
      · cases h
      · cases h

/-- Witness of C9: on an empty file system `findVMLibrary` returns `NULL` for
`/opt/app/jre/bin/java` and leaves the process state alone; with the library in
`classic` it returns the path `findLib` found. -/
theorem findVMLibrary_not_found_witness :
    findVMLibrary sample (fun _ => none) (some "/opt/app/jre/bin/java".toList)
        { environ := [("HOME".toList, "/root".toList)], trace := [] } =
      .returned none { environ := [("HOME".toList, "/root".toList)], trace := [] } ∧
    findLib sample fsClassic (some "/opt/app/jre/bin/java".toList) =
      .ok (some "/opt/app/jre/bin/classic/libjvm.so".toList) :=
  ⟨(findVMLibrary_not_found sample (fun _ => none) (some "/opt/app/jre/bin/java".toList)
      { environ := [("HOME".toList, "/root".toList)], trace := [] }).2.1 (by decide),
    (findVMLibrary_not_found sample fsClassic (some "/opt/app/jre/bin/java".toList)
      { environ := [(LD_LIBRARY_PATH, "/opt/app/jre/bin/classic".toList)], trace := [] }).2.2
      (some "/opt/app/jre/bin/classic/libjvm.so".toList)
      { environ := [(LD_LIBRARY_PATH, "/opt/app/jre/bin/classic".toList)], trace := [] }
      (by decide)⟩

/-- C5, as the code has it: when the library is found, adjustment is needed and
the `execv` call fails, `restartLauncher` and `adjustLibraryPath` return, and
`findVMLibrary` returns the library `findLib` found, with `LD_LIBRARY_PATH`
already set to its new value; the failure is not reported. -/
theorem findVMLibrary_relaunch_failed (L : Launcher) (fs : FileSystem)
    (command : Option CString) (s : Process) (lib : CString) (previous : Option CString)
    (hfound : findLib L fs command = .ok (some lib))
    (hprev : getenv (fixEnv L s.environ) LD_LIBRARY_PATH = previous)
    (hneed : previous = none ∨
      ∃ v, previous = some v ∧ L.containsPaths v (L.getVMLibrarySearchPath lib) = false)
    (hfail : L.execvSucceeds L.initialArgv.head? L.initialArgv = false) :
    findVMLibrary L fs command s =
      .returned (some lib)
        { environ := setenv (fixEnv L s.environ) LD_LIBRARY_PATH
            (L.concatStrings (L.getVMLibrarySearchPath lib) ++ previous.getD [])
          trace := s.trace ++
            [Event.setenv LD_LIBRARY_PATH
              (L.concatStrings (L.getVMLibrarySearchPath lib) ++ previous.getD []),
             Event.execv L.initialArgv.head? L.initialArgv] } := by
  simp [findVMLibrary, hfound, adjustLibraryPath_adjusted L lib s previous hprev hneed,
    restartLauncher_argv0, hfail]

/-- Witness of C5 as amended: `LD_LIBRARY_PATH=/usr/lib`, the library in
`classic`, `execv` failing. -/
theorem findVMLibrary_relaunch_failed_witness :
    findVMLibrary sample fsClassic (some "/opt/app/jre/bin/java".toList)
        { environ := [(LD_LIBRARY_PATH, "/usr/lib".toList)], trace := [] } =
      .returned (some "/opt/app/jre/bin/classic/libjvm.so".toList)
        { environ := [(LD_LIBRARY_PATH, "/opt/app/jre/bin/classic:/usr/lib".toList)]
          trace := [Event.setenv LD_LIBRARY_PATH "/opt/app/jre/bin/classic:/usr/lib".toList,
            Event.execv (some "/opt/app/eclipse".toList) sample.initialArgv] } := by
  rw [findVMLibrary_relaunch_failed sample fsClassic (some "/opt/app/jre/bin/java".toList)
    { environ := [(LD_LIBRARY_PATH, "/usr/lib".toList)], trace := [] }
    "/opt/app/jre/bin/classic/libjvm.so".toList (some "/usr/lib".toList)
    (by decide) (by decide) (Or.inr ⟨"/usr/lib".toList, rfl, by decide⟩) (by decide)]
  decide

/-- C5, as the specification has it, fails: with `LD_LIBRARY_PATH` unset and the
library in `classic`, the `execv` call of the sample launcher fails, and
`findVMLibrary` still returns the library path to its caller. -/
theorem findVMLibrary_continues_after_failed_relaunch :
    sample.execvSucceeds sample.initialArgv.head? sample.initialArgv = false ∧
    ∃ s1, Event.execv sample.initialArgv.head? sample.initialArgv ∈ s1.trace ∧
      findVMLibrary sample fsClassic (some "/opt/app/jre/bin/java".toList)
          { environ := [], trace := [] } =
        .returned (some "/opt/app/jre/bin/classic/libjvm.so".toList) s1 := by
  refine ⟨by decide, ?_⟩
  refine ⟨{ environ := [(LD_LIBRARY_PATH, "/opt/app/jre/bin/classic:".toList)]
            trace := [Event.setenv LD_LIBRARY_PATH "/opt/app/jre/bin/classic:".toList,
              Event.execv sample.initialArgv.head? sample.initialArgv] }, by decide, by decide⟩

end EclipseNix
